import Mathlib

/-!
Verification of the Image Quality Analysis & Enhancement Engine of the
`ragfoto` repository, a shallow embedding of
`src/image_analysis/image-analyzer.py` and `src/enhancement/image-enhancer.py`.

Modelling conventions:
* Python floats are modelled as exact rationals (`ℚ`); the one genuinely
  irrational operation, `numpy.ndarray.std`'s square root, is modelled with
  `Real.sqrt` over the rational variance.
* Machine images are grids of 8-bit channel values, modelled as functions
  `ℕ → ℕ → ℕ × ℕ × ℕ` together with explicit width/height; the uint8 range
  appears as an explicit `≤ 255` hypothesis where a property depends on it.
* Calls into OpenCV and PIL primitives that are not implemented in this
  repository (cvtColor, Canny, findContours + contourArea + boundingRect,
  Laplacian, CascadeClassifier, the four `ImageEnhance` transforms) are
  parameters bundled in `LibOps`; everything the repository itself computes
  is defined from the source.
* Fallible Python code (raising exceptions) returns `Except PyErr _`.
-/

/-- Python exceptions relevant to the analyzed code paths. `zeroDivision` is
Python's `ZeroDivisionError`, `attributeError` is `AttributeError`.
`emptyImage` is modelled from the spec: it names the distinguished
`EmptyImageError` the spec describes for zero-area inputs; the source defines
no such exception and no code path below ever constructs it. -/
inductive PyErr where
  | zeroDivision
  | attributeError
  | emptyImage
deriving DecidableEq, Repr

/-- A decoded image: width, height, and an RGB pixel grid (channel values are
8-bit intensities; the `≤ 255` range is carried as a hypothesis where
needed). -/
structure Img where
  w : ℕ
  h : ℕ
  px : ℕ → ℕ → ℕ × ℕ × ℕ

/-- The analysis fields that `_parse_suggestions` reads from the analysis
dictionary: `analysis.get("brightness", 128)` (0–255 scale),
`analysis.get("contrast", 0.5)` and `analysis.get("rule_of_thirds", 0.5)`.
A present key is modelled by the field value; absent keys by the default. -/
structure AnalysisMetrics where
  brightness : ℚ
  contrast : ℚ
  rule_of_thirds : ℚ

/-- The adjustments dictionary built by `_parse_suggestions`
(`image-enhancer.py` lines 33–40). -/
structure Adjustments where
  brightness : ℚ
  contrast : ℚ
  color : ℚ
  sharpness : ℚ
  warmth : ℚ
  crop_rule_thirds : Bool
deriving DecidableEq, Repr

/-- The initial adjustments dictionary: all deltas 0, crop flag false. -/
def zero_adjustments : Adjustments :=
  { brightness := 0, contrast := 0, color := 0, sharpness := 0, warmth := 0,
    crop_rule_thirds := false }

/- Python string primitives used by the keyword matching. -/

/-- Whether `needle` occurs at the start of `hay` (character lists). -/
def chars_match : List Char → List Char → Bool
  | [], _ => true
  | _ :: _, [] => false
  | a :: as, b :: bs => a == b && chars_match as bs

/-- Whether `needle` occurs anywhere in `hay` (character lists). -/
def chars_in (needle : List Char) : List Char → Bool
  | [] => needle.isEmpty
  | c :: cs => chars_match needle (c :: cs) || chars_in needle cs

/-- Python's substring test `needle in hay`. -/
def str_in (needle hay : String) : Bool :=
  chars_in needle.data hay.data

/-- Python's `str.lower()`. Modelled with `Char.toLower`, which lowercases
the ASCII range; the keyword tables themselves are already lowercase, and the
non-ASCII letters they contain are unaffected. -/
def to_lower (s : String) : String :=
  ⟨s.data.map Char.toLower⟩

/-- Python's `any(keyword in s for keyword in kws)`. -/
def contains_kw (s : String) (kws : List String) : Bool :=
  kws.any (fun k => str_in k s)

/- Keyword tables from `_parse_suggestions` (`image-enhancer.py` lines
43–48) and the per-family direction word lists (lines 61–96). -/

/-- Brightness family keywords (line 43). -/
def brightness_keywords : List String :=
  ["bright", "dark", "exposure", "illumina", "luz", "escur", "exposição"]

/-- Contrast family keywords (line 44). -/
def contrast_keywords : List String :=
  ["contrast", "flat", "contraste", "plano"]

/-- Color family keywords (line 45). -/
def color_keywords : List String :=
  ["saturation", "vibrant", "vivid", "colorful", "saturação", "vibrante", "colorido"]

/-- Sharpness family keywords (line 46). -/
def sharpness_keywords : List String :=
  ["sharp", "blur", "focus", "nitid", "foco", "desfoque"]

/-- Warmth family keywords (line 47). -/
def warmth_keywords : List String :=
  ["warm", "cool", "temperature", "quente", "frio", "temperatura"]

/-- Composition family keywords (line 48). -/
def composition_keywords : List String :=
  ["composition", "rule of thirds", "crop", "composição", "regra dos terços", "cortar"]

/-- Brightness increase direction words (line 61). -/
def brightness_increase_words : List String :=
  ["increase", "more", "brighter", "higher", "aumentar", "mais", "maior"]

/-- Brightness decrease direction words (line 63). -/
def brightness_decrease_words : List String :=
  ["decrease", "less", "darker", "lower", "diminuir", "menos", "menor"]

/-- Contrast increase direction words (line 68). -/
def contrast_increase_words : List String :=
  ["increase", "more", "higher", "aumentar", "mais", "maior"]

/-- Contrast decrease direction words (line 70). -/
def contrast_decrease_words : List String :=
  ["decrease", "less", "lower", "diminuir", "menos", "menor"]

/-- Color increase direction words (line 75). -/
def color_increase_words : List String :=
  ["increase", "more", "vibrant", "colorful", "aumentar", "mais", "vibrante"]

/-- Color decrease direction words (line 77). -/
def color_decrease_words : List String :=
  ["decrease", "less", "muted", "diminuir", "menos"]

/-- Sharpness increase direction words (line 82). -/
def sharpness_increase_words : List String :=
  ["increase", "more", "sharper", "aumentar", "mais", "maior"]

/-- Sharpness decrease direction words (line 84). -/
def sharpness_decrease_words : List String :=
  ["decrease", "less", "softer", "diminuir", "menos", "menor"]

/-- Warmth increase direction words (line 89). -/
def warmth_increase_words : List String :=
  ["warmer", "increase", "more", "mais quente", "aumentar"]

/-- Warmth decrease direction words (line 91). -/
def warmth_decrease_words : List String :=
  ["cooler", "decrease", "less", "mais frio", "diminuir"]

/- The six per-family update blocks of the suggestion loop
(`image-enhancer.py` lines 56–98). Each takes the lowercased suggestion
`t` and, for brightness/contrast/composition, the relevant current metric. -/

/-- Brightness block (lines 60–64); `cb` is `current_brightness`
(= brightness / 255). -/
def upd_brightness (cb : ℚ) (t : String) (adj : Adjustments) : Adjustments :=
  if contains_kw t brightness_keywords then
    if contains_kw t brightness_increase_words then
      { adj with brightness := max (1/10) (min (1/2) (1 - cb)) }
    else if contains_kw t brightness_decrease_words then
      { adj with brightness := max (-(1/2)) (min (-(1/10)) (0 - cb)) }
    else adj
  else adj

/-- Contrast block (lines 66–71); `cc` is `current_contrast`. -/
def upd_contrast (cc : ℚ) (t : String) (adj : Adjustments) : Adjustments :=
  if contains_kw t contrast_keywords then
    if contains_kw t contrast_increase_words then
      { adj with contrast := max (1/10) (min (7/10) (1 - cc)) }
    else if contains_kw t contrast_decrease_words then
      { adj with contrast := max (-(3/10)) (min (-(1/10)) (0 - cc)) }
    else adj
  else adj

/-- Color block (lines 73–78). -/
def upd_color (t : String) (adj : Adjustments) : Adjustments :=
  if contains_kw t color_keywords then
    if contains_kw t color_increase_words then
      { adj with color := 3/10 }
    else if contains_kw t color_decrease_words then
      { adj with color := -(2/10) }
    else adj
  else adj

/-- Sharpness block (lines 80–85). -/
def upd_sharpness (t : String) (adj : Adjustments) : Adjustments :=
  if contains_kw t sharpness_keywords then
    if contains_kw t sharpness_increase_words then
      { adj with sharpness := 1/2 }
    else if contains_kw t sharpness_decrease_words then
      { adj with sharpness := -(2/10) }
    else adj
  else adj

/-- Warmth block (lines 87–92). -/
def upd_warmth (t : String) (adj : Adjustments) : Adjustments :=
  if contains_kw t warmth_keywords then
    if contains_kw t warmth_increase_words then
      { adj with warmth := 2/10 }
    else if contains_kw t warmth_decrease_words then
      { adj with warmth := -(2/10) }
    else adj
  else adj

/-- Composition block (lines 94–98); `crt` is `current_rule_thirds`. The
crop flag is only ever set to `true`, never reset. -/
def upd_composition (crt : ℚ) (t : String) (adj : Adjustments) : Adjustments :=
  if contains_kw t composition_keywords then
    if str_in "rule of thirds" t || str_in "regra dos terços" t then
      if crt < 2/5 then { adj with crop_rule_thirds := true } else adj
    else adj
  else adj

/-- One iteration of the suggestion loop (`image-enhancer.py` lines 56–98):
lowercase the suggestion, then run the six family blocks in source order. -/
def apply_suggestion (analysis : AnalysisMetrics) (adj : Adjustments)
    (suggestion : String) : Adjustments :=
  let t := to_lower suggestion
  upd_composition analysis.rule_of_thirds t
    (upd_warmth t
      (upd_sharpness t
        (upd_color t
          (upd_contrast analysis.contrast t
            (upd_brightness (analysis.brightness / 255) t adj)))))

/-- `_parse_suggestions` (`image-enhancer.py` lines 31–100): fold the
suggestion loop over the list, starting from the zero adjustments. -/
def parse_suggestions (suggestions : List String) (analysis : AnalysisMetrics) :
    Adjustments :=
  suggestions.foldl (apply_suggestion analysis) zero_adjustments

/- Vocabulary for stating per-family properties of the suggestion loop:
the five numeric metric families, and for each its keyword table, direction
word tables, written delta and written value (all read off the same source
lines as the updaters above). -/

/-- The five numeric metric families of the adjustments dictionary. -/
inductive Fam where
  | brightness
  | contrast
  | color
  | sharpness
  | warmth
deriving DecidableEq, Repr

/-- The delta field of a family in the adjustments dictionary. -/
def fam_delta : Fam → Adjustments → ℚ
  | Fam.brightness, adj => adj.brightness
  | Fam.contrast, adj => adj.contrast
  | Fam.color, adj => adj.color
  | Fam.sharpness, adj => adj.sharpness
  | Fam.warmth, adj => adj.warmth

/-- The keyword table of a family. -/
def fam_keywords : Fam → List String
  | Fam.brightness => brightness_keywords
  | Fam.contrast => contrast_keywords
  | Fam.color => color_keywords
  | Fam.sharpness => sharpness_keywords
  | Fam.warmth => warmth_keywords

/-- The increase direction words of a family. -/
def fam_increase_words : Fam → List String
  | Fam.brightness => brightness_increase_words
  | Fam.contrast => contrast_increase_words
  | Fam.color => color_increase_words
  | Fam.sharpness => sharpness_increase_words
  | Fam.warmth => warmth_increase_words

/-- The decrease direction words of a family. -/
def fam_decrease_words : Fam → List String
  | Fam.brightness => brightness_decrease_words
  | Fam.contrast => contrast_decrease_words
  | Fam.color => color_decrease_words
  | Fam.sharpness => sharpness_decrease_words
  | Fam.warmth => warmth_decrease_words

/-- Whether a suggestion writes a family's delta: it contains a family
keyword and a recognized direction word (so one of the two assignment
branches of that family's block runs). -/
def fam_writes (f : Fam) (s : String) : Bool :=
  contains_kw (to_lower s) (fam_keywords f) &&
    (contains_kw (to_lower s) (fam_increase_words f) ||
     contains_kw (to_lower s) (fam_decrease_words f))

/-- The delta assigned by a family's increase branch. -/
def fam_inc_value (a : AnalysisMetrics) : Fam → ℚ
  | Fam.brightness => max (1/10) (min (1/2) (1 - a.brightness / 255))
  | Fam.contrast => max (1/10) (min (7/10) (1 - a.contrast))
  | Fam.color => 3/10
  | Fam.sharpness => 1/2
  | Fam.warmth => 2/10

/-- The delta assigned by a family's decrease branch. -/
def fam_dec_value (a : AnalysisMetrics) : Fam → ℚ
  | Fam.brightness => max (-(1/2)) (min (-(1/10)) (0 - a.brightness / 255))
  | Fam.contrast => max (-(3/10)) (min (-(1/10)) (0 - a.contrast))
  | Fam.color => -(2/10)
  | Fam.sharpness => -(2/10)
  | Fam.warmth => -(2/10)

/-- The delta a writing suggestion assigns to a family: the increase value
when an increase word is present (the `if` branch wins over the `elif`),
otherwise the decrease value. -/
def fam_value (a : AnalysisMetrics) (f : Fam) (s : String) : ℚ :=
  if contains_kw (to_lower s) (fam_increase_words f) then fam_inc_value a f
  else fam_dec_value a f

/- The rule-of-thirds crop solver, `_crop_for_rule_of_thirds`
(`image-enhancer.py` lines 158–205). The OpenCV part (Canny, findContours,
contourArea, boundingRect, lines 160–175) is external; the geometric window
computation (lines 177–204) is defined from the source. -/

/-- The crop rectangle `(crop_x1, crop_y1, crop_x2, crop_y2)` handed to
`PIL.Image.crop`. -/
structure CropRect where
  x1 : ℕ
  y1 : ℕ
  x2 : ℕ
  y2 : ℕ
deriving DecidableEq, Repr

/-- Crop-window computation of `_crop_for_rule_of_thirds`
(`image-enhancer.py` lines 184–201), given the image dimensions and the
subject center derived from the largest contour's bounding rectangle.
`int(img_w * 0.8)` is modelled as `img_w * 4 / 5` (floor): for every image
size that fits in a float's 53-bit mantissa, `float(img_w) * 0.8` truncates
to exactly `⌊4·img_w/5⌋` because `0.8`'s binary representation is slightly
above 4/5 and the product's fractional part is at least 1/5 away from the
next integer whenever 5 does not divide `4·img_w`. -/
def crop_window (img_w img_h : ℕ) (subject_center_x subject_center_y : ℕ) :
    CropRect :=
  let target_x : ℕ := if subject_center_x > img_w / 2 then img_w / 3 else img_w * 2 / 3
  let target_y : ℕ := if subject_center_y > img_h / 2 then img_h / 3 else img_h * 2 / 3
  let offset_x : ℤ := (subject_center_x : ℤ) - target_x
  let offset_y : ℤ := (subject_center_y : ℤ) - target_y
  let crop_w : ℕ := min img_w (img_w * 4 / 5)
  let crop_h : ℕ := min img_h (img_h * 4 / 5)
  let crop_x1 : ℤ := max 0 (min ((img_w : ℤ) - crop_w) offset_x)
  let crop_y1 : ℤ := max 0 (min ((img_h : ℤ) - crop_h) offset_y)
  let crop_x2 : ℤ := min (img_w : ℤ) (crop_x1 + crop_w)
  let crop_y2 : ℤ := min (img_h : ℤ) (crop_y1 + crop_h)
  { x1 := crop_x1.toNat, y1 := crop_y1.toNat, x2 := crop_x2.toNat, y2 := crop_y2.toNat }

/-- External OpenCV / PIL primitives the engine calls but does not
implement: `cv2.cvtColor` to grayscale, `cv2.Canny` (thresholds 100/200),
`cv2.Laplacian(..).var()`, the Haar-cascade face detector, the composition
`cv2.findContours` → `max(..., key=cv2.contourArea)` → `cv2.boundingRect`
(`find_subject`, returning `none` exactly when the contour list is empty),
and the four `PIL.ImageEnhance` factor transforms applied with
`factor = 1 + delta`. -/
structure LibOps where
  grayscale : (ℕ → ℕ → ℕ × ℕ × ℕ) → (ℕ → ℕ → ℕ)
  canny : (ℕ → ℕ → ℕ) → (ℕ → ℕ → Bool)
  laplacian_variance : (ℕ → ℕ → ℕ) → ℚ
  detect_faces : (ℕ → ℕ → ℕ) → ℕ
  find_subject : Img → Option (ℕ × ℕ × ℕ × ℕ)
  enhance_brightness : Img → ℚ → Img
  enhance_contrast : Img → ℚ → Img
  enhance_color : Img → ℚ → Img
  enhance_sharpness : Img → ℚ → Img

/-- `_crop_for_rule_of_thirds` (`image-enhancer.py` lines 158–205): if the
edge image has no contours, return the image unchanged; otherwise take the
largest contour's bounding rectangle `(x, y, w, h)`, its center
`(x + w // 2, y + h // 2)`, and crop to the window from `crop_window`
(`PIL.Image.crop` yields the sub-buffer of size `(x2 - x1, y2 - y1)`). -/
def crop_for_rule_of_thirds (ops : LibOps) (image : Img) : Img :=
  match ops.find_subject image with
  | none => image
  | some (x, y, w, h) =>
      let subject_center_x := x + w / 2
      let subject_center_y := y + h / 2
      let r := crop_window image.w image.h subject_center_x subject_center_y
      { w := r.x2 - r.x1, h := r.y2 - r.y1,
        px := fun i j => image.px (i + r.x1) (j + r.y1) }

/-- Clamp a channel value to `[0, 255]` (`np.clip(..., 0, 255)`). -/
def clip255 (q : ℚ) : ℚ := min 255 (max 0 q)

/-- `_adjust_warmth` (`image-enhancer.py` lines 138–156): scale the red and
blue channels in opposite directions and clip; writing the scaled float back
into the uint8 array truncates, modelled with `Int.toNat ∘ Rat.floor` (the
clipped value is nonnegative). -/
def adjust_warmth (image : Img) (adjustment : ℚ) : Img :=
  if adjustment > 0 then
    { image with px := fun x y =>
        let p := image.px x y
        ((⌊clip255 ((p.1 : ℚ) * (1 + adjustment))⌋).toNat, p.2.1,
         (⌊clip255 ((p.2.2 : ℚ) * (1 - adjustment / 2))⌋).toNat) }
  else
    let a := |adjustment|
    { image with px := fun x y =>
        let p := image.px x y
        ((⌊clip255 ((p.1 : ℚ) * (1 - a / 2))⌋).toNat, p.2.1,
         (⌊clip255 ((p.2.2 : ℚ) * (1 + a))⌋).toNat) }

/-- The method names bound in the body of `class ImageEnhancer`
(`image-enhancer.py` lines 7–156). The `def _crop_for_rule_of_thirds` on
line 158 is written at column 0, outside the class body, so it is a
module-level function and not among the class's attributes. -/
def image_enhancer_methods : List String :=
  ["__init__", "enhance_image", "_parse_suggestions", "_apply_enhancements",
   "_adjust_warmth"]

/-- `_apply_enhancements` (`image-enhancer.py` lines 102–136). The crop
branch calls `self._crop_for_rule_of_thirds(image)`; Python attribute lookup
on the instance is modelled explicitly against `image_enhancer_methods` and
raises `AttributeError` when the name is not a class attribute. Each
photometric transform runs only when its delta is nonzero, with
`factor = 1 + delta`; the `analysis` argument is accepted and unused, as in
the source. -/
def apply_enhancements (ops : LibOps) (image : Img) (adjustments : Adjustments)
    (analysis : AnalysisMetrics) : Except PyErr Img :=
  let step0 : Except PyErr Img :=
    if adjustments.crop_rule_thirds then
      if image_enhancer_methods.contains "_crop_for_rule_of_thirds" then
        Except.ok (crop_for_rule_of_thirds ops image)
      else Except.error PyErr.attributeError
    else Except.ok image
  match step0 with
  | Except.error e => Except.error e
  | Except.ok img0 =>
      let img1 := if adjustments.brightness ≠ 0 then
        ops.enhance_brightness img0 (1 + adjustments.brightness) else img0
      let img2 := if adjustments.contrast ≠ 0 then
        ops.enhance_contrast img1 (1 + adjustments.contrast) else img1
      let img3 := if adjustments.color ≠ 0 then
        ops.enhance_color img2 (1 + adjustments.color) else img2
      let img4 := if adjustments.sharpness ≠ 0 then
        ops.enhance_sharpness img3 (1 + adjustments.sharpness) else img3
      let img5 := if adjustments.warmth ≠ 0 then
        adjust_warmth img4 adjustments.warmth else img4
      Except.ok img5

/- The analyzer, `image-analyzer.py`. -/

/-- Python float division: raises `ZeroDivisionError` on a zero
denominator. -/
def pyDiv (a b : ℚ) : Except PyErr ℚ :=
  if b = 0 then Except.error PyErr.zeroDivision else Except.ok (a / b)

/-- Number of edge pixels of the edge map `e` inside the rectangle
`[x1, x2) × [y1, y2)` (`np.sum(edges[y1:y2, x1:x2] > 0)`). -/
def edge_count (e : ℕ → ℕ → Bool) (x1 x2 y1 y2 : ℕ) : ℕ :=
  ∑ y ∈ Finset.Ico y1 y2, ∑ x ∈ Finset.Ico x1 x2, (if e x y then 1 else 0)

/-- A numpy float64 value: finite (exact rational here), nan, or a signed
infinity. Needed because `np.sum` returns numpy scalars, whose divisions
follow IEEE-754 semantics (a zero denominator warns and yields nan or ±inf,
it never raises). -/
inductive NpVal where
  | fin (q : ℚ)
  | nan
  | inf
  | ninf
deriving DecidableEq, Repr

/-- IEEE-754 division of one float64 by another (finite operands): with a
zero denominator, `0/0` is nan and `±x/0` is `±inf`; numpy only emits a
RuntimeWarning. -/
def np_div (a b : ℚ) : NpVal :=
  if b = 0 then
    if a = 0 then NpVal.nan
    else if a > 0 then NpVal.inf
    else NpVal.ninf
  else NpVal.fin (a / b)

/-- IEEE-754 division of a float64 value by a finite float64 (`nan`
propagates; infinities keep their magnitude and take the sign of the
denominator, a zero denominator counting as +0). -/
def np_div_l (a : NpVal) (b : ℚ) : NpVal :=
  match a with
  | NpVal.fin x => np_div x b
  | NpVal.nan => NpVal.nan
  | NpVal.inf => if b < 0 then NpVal.ninf else NpVal.inf
  | NpVal.ninf => if b < 0 then NpVal.inf else NpVal.ninf

/-- Python's `min(1.0, x)` on a float64 value: CPython keeps the first
argument unless `x < 1.0` compares true, and every comparison with nan is
false, so nan and `+inf` both yield `1.0`. -/
def py_min_one : NpVal → NpVal
  | NpVal.fin q => if q < 1 then NpVal.fin q else NpVal.fin 1
  | NpVal.nan => NpVal.fin 1
  | NpVal.inf => NpVal.fin 1
  | NpVal.ninf => NpVal.ninf

/-- `_analyze_rule_of_thirds` (`image-analyzer.py` lines 59–100), taking the
Canny edge map (shape `h × w`) as input. Numpy slice bounds
`max(0, x - region_size)` are natural subtraction here.
`expected_random_proportion = region_pixels / total_pixels` divides two pure
Python ints (shapes and `region_size` are Python ints), so it would raise
`ZeroDivisionError` on a zero denominator (`pyDiv`; unreachable, since
`total_edges = 0` has already returned). `intersection_edge_sum` and
`total_edges` are numpy int64 scalars (`np.sum`), so `actual_proportion` and
the final `score` divisions are float64 IEEE divisions (`np_div`): for an
image under 10 px in its smaller dimension, `region_size = 0` makes
`expected_random_proportion = 0` and the final division yields nan, which
`min(1.0, ...)` turns into `1.0` — no exception. -/
def analyze_rule_of_thirds (h w : ℕ) (edges : ℕ → ℕ → Bool) :
    Except PyErr NpVal :=
  let h_third := h / 3
  let w_third := w / 3
  let intersection_regions : List (ℕ × ℕ) :=
    [(w_third, h_third), (w_third * 2, h_third),
     (w_third, h_third * 2), (w_third * 2, h_third * 2)]
  let total_edges := edge_count edges 0 w 0 h
  if total_edges = 0 then Except.ok (NpVal.fin 0)
  else
    let region_size := min h w / 10
    let intersection_edge_sum :=
      (intersection_regions.map (fun p =>
        edge_count edges (p.1 - region_size) (min w (p.1 + region_size))
          (p.2 - region_size) (min h (p.2 + region_size)))).sum
    let region_pixels : ℚ := 4 * ((region_size * 2 : ℕ) : ℚ) ^ 2
    let total_pixels : ℚ := ((h * w : ℕ) : ℚ)
    match pyDiv region_pixels total_pixels with
    | Except.error e => Except.error e
    | Except.ok expected_random_proportion =>
        let actual_proportion : NpVal :=
          np_div (intersection_edge_sum : ℚ) (total_edges : ℚ)
        Except.ok (py_min_one
          (np_div_l actual_proportion (expected_random_proportion * 2)))

/-- Sum of the grayscale image over its grid. -/
def gray_sum (w h : ℕ) (g : ℕ → ℕ → ℕ) : ℚ :=
  ∑ y ∈ Finset.range h, ∑ x ∈ Finset.range w, ((g x y : ℚ))

/-- Mean grayscale intensity (`gray.mean()`). -/
def gray_mean (w h : ℕ) (g : ℕ → ℕ → ℕ) : ℚ :=
  gray_sum w h g / ((w * h : ℕ) : ℚ)

/-- Population variance of the grayscale image (`ddof = 0`, as
`numpy.ndarray.std` squares). -/
def gray_var (w h : ℕ) (g : ℕ → ℕ → ℕ) : ℚ :=
  (∑ y ∈ Finset.range h, ∑ x ∈ Finset.range w,
    ((g x y : ℚ) - gray_mean w h g) ^ 2) / ((w * h : ℕ) : ℚ)

/-- `_calculate_contrast` (`image-analyzer.py` lines 54–57):
`gray.std() / 255`, the square root of the population variance divided
by 255, over the grayscale image. -/
noncomputable def calculate_contrast (w h : ℕ) (g : ℕ → ℕ → ℕ) : ℝ :=
  Real.sqrt ((gray_var w h g : ℚ) : ℝ) / 255

/-- Per-channel intensity histogram bin `i` (`rgb_image.histogram()`),
for the channel selected by `f`. -/
def hist_count (image : Img) (f : ℕ × ℕ × ℕ → ℕ) (i : ℕ) : ℕ :=
  ∑ y ∈ Finset.range image.h, ∑ x ∈ Finset.range image.w,
    (if f (image.px x y) = i then 1 else 0)

/-- Weighted channel average over the histogram
(`sum(i * count ...) / sum(hist)`, `image-analyzer.py` lines 119–121). -/
def channel_hist_avg (image : Img) (f : ℕ × ℕ × ℕ → ℕ) : Except PyErr ℚ :=
  pyDiv (∑ i ∈ Finset.range 256, (i : ℚ) * (hist_count image f i : ℚ))
    (∑ i ∈ Finset.range 256, (hist_count image f i : ℚ))

/-- Weighted channel variance over the histogram
(`image-analyzer.py` lines 130–132). -/
def channel_hist_var (image : Img) (f : ℕ × ℕ × ℕ → ℕ) (avg : ℚ) :
    Except PyErr ℚ :=
  pyDiv (∑ i ∈ Finset.range 256, ((i : ℚ) - avg) ^ 2 * (hist_count image f i : ℚ))
    (∑ i ∈ Finset.range 256, (hist_count image f i : ℚ))

/-- Color-balance record returned by `_analyze_color_balance`. -/
structure ColorBalance where
  channel_avg : ℚ × ℚ × ℚ
  balance : ℚ × ℚ × ℚ
  variance : ℚ × ℚ × ℚ

/-- Red channel selector. -/
def chan_r (p : ℕ × ℕ × ℕ) : ℕ := p.1

/-- Green channel selector. -/
def chan_g (p : ℕ × ℕ × ℕ) : ℕ := p.2.1

/-- Blue channel selector. -/
def chan_b (p : ℕ × ℕ × ℕ) : ℕ := p.2.2

/-- `_analyze_color_balance` (`image-analyzer.py` lines 108–138): channel
averages, balance ratios (defined as 1 when the mean of the averages is not
positive), and channel variances. -/
def analyze_color_balance (image : Img) : Except PyErr ColorBalance :=
  match channel_hist_avg image chan_r with
  | Except.error e => Except.error e
  | Except.ok r_avg =>
  match channel_hist_avg image chan_g with
  | Except.error e => Except.error e
  | Except.ok g_avg =>
  match channel_hist_avg image chan_b with
  | Except.error e => Except.error e
  | Except.ok b_avg =>
    let avg := (r_avg + g_avg + b_avg) / 3
    let r_balance := if avg > 0 then r_avg / avg else 1
    let g_balance := if avg > 0 then g_avg / avg else 1
    let b_balance := if avg > 0 then b_avg / avg else 1
    match channel_hist_var image chan_r r_avg with
    | Except.error e => Except.error e
    | Except.ok r_var =>
    match channel_hist_var image chan_g g_avg with
    | Except.error e => Except.error e
    | Except.ok g_var =>
    match channel_hist_var image chan_b b_avg with
    | Except.error e => Except.error e
    | Except.ok b_var =>
      Except.ok { channel_avg := (r_avg, g_avg, b_avg),
                  balance := (r_balance, g_balance, b_balance),
                  variance := (r_var, g_var, b_var) }

/-- The dictionary returned by `analyze_image`
(`image-analyzer.py` lines 43–52). -/
structure AnalysisResult where
  width : ℕ
  height : ℕ
  aspect_ratio : ℚ
  brightness : ℚ
  contrast : ℝ
  rule_of_thirds : NpVal
  sharpness : ℚ
  color_balance : ColorBalance
  faces : ℕ

/-- Sum of one channel over the whole image (`ImageStat.Stat` channel
sum). -/
def channel_sum (image : Img) (f : ℕ × ℕ × ℕ → ℕ) : ℕ :=
  ∑ y ∈ Finset.range image.h, ∑ x ∈ Finset.range image.w, f (image.px x y)

/-- Brightness à la `ImageStat.Stat(pil_image)`:
`sum(stat.mean) / len(stat.mean)` with three channels, each channel mean
being the channel sum divided by the pixel count (PIL raises
`ZeroDivisionError` on an empty image). -/
def image_brightness (image : Img) : Except PyErr ℚ :=
  match pyDiv (channel_sum image chan_r : ℚ) ((image.w * image.h : ℕ) : ℚ) with
  | Except.error e => Except.error e
  | Except.ok r =>
  match pyDiv (channel_sum image chan_g : ℚ) ((image.w * image.h : ℕ) : ℚ) with
  | Except.error e => Except.error e
  | Except.ok g =>
  match pyDiv (channel_sum image chan_b : ℚ) ((image.w * image.h : ℕ) : ℚ) with
  | Except.error e => Except.error e
  | Except.ok b => Except.ok ((r + g + b) / 3)

/-- `analyze_image` (`image-analyzer.py` lines 14–52), in source order:
`aspect_ratio = width / height` (this division is the first fallible step —
there is no zero-area check anywhere in the function), then brightness,
contrast, rule of thirds, sharpness, color balance and face count. -/
noncomputable def analyze_image (ops : LibOps) (image : Img) :
    Except PyErr AnalysisResult :=
  match pyDiv (image.w : ℚ) (image.h : ℚ) with
  | Except.error e => Except.error e
  | Except.ok aspect_ratio =>
  match image_brightness image with
  | Except.error e => Except.error e
  | Except.ok brightness =>
    let gray := ops.grayscale image.px
    let contrast := calculate_contrast image.w image.h gray
    match analyze_rule_of_thirds image.h image.w (ops.canny gray) with
    | Except.error e => Except.error e
    | Except.ok rule_of_thirds =>
      let sharpness := ops.laplacian_variance gray
      match analyze_color_balance image with
      | Except.error e => Except.error e
      | Except.ok color_balance =>
        Except.ok { width := image.w, height := image.h,
                    aspect_ratio := aspect_ratio, brightness := brightness,
                    contrast := contrast, rule_of_thirds := rule_of_thirds,
                    sharpness := sharpness, color_balance := color_balance,
                    faces := ops.detect_faces gray }

/- Concrete instantiations used by witnesses and counterexamples. -/

/-- A trivial instantiation of the external library primitives: the
grayscale image is constantly 0, the edge map is empty, no contours are
found, and the `ImageEnhance` transforms return their input. -/
def dummy_ops : LibOps where
  grayscale := fun _ _ _ => 0
  canny := fun _ _ _ => false
  laplacian_variance := fun _ => 0
  detect_faces := fun _ => 0
  find_subject := fun _ => none
  enhance_brightness := fun i _ => i
  enhance_contrast := fun i _ => i
  enhance_color := fun i _ => i
  enhance_sharpness := fun i _ => i

/-- A 1×1 black image. -/
def img_one : Img := { w := 1, h := 1, px := fun _ _ => (0, 0, 0) }

/-- A 1×0 image (positive width, zero height). -/
def img_hzero : Img := { w := 1, h := 0, px := fun _ _ => (0, 0, 0) }

/-- Adjustments asking only for the rule-of-thirds crop. -/
def crop_only_adjustments : Adjustments :=
  { zero_adjustments with crop_rule_thirds := true }

/-- A 5×5 edge map with a single edge pixel at the origin. -/
def edges_5x5 : ℕ → ℕ → Bool := fun x y => x = 0 && y = 0

/-- Analysis metrics of the spec's solid-gray example: brightness 128,
contrast 0, no edges. -/
def gray_metrics : AnalysisMetrics :=
  { brightness := 128, contrast := 0, rule_of_thirds := 0 }

/- Field-preservation lemmas: each family block of the suggestion loop
writes only its own field of the adjustments dictionary. -/

/-- The brightness block leaves the contrast delta unchanged. -/
@[simp] theorem upd_brightness_contrast (cb : ℚ) (t : String) (adj : Adjustments) :
    (upd_brightness cb t adj).contrast = adj.contrast := by
  unfold upd_brightness; split_ifs <;> rfl

/-- The brightness block leaves the color delta unchanged. -/
@[simp] theorem upd_brightness_color (cb : ℚ) (t : String) (adj : Adjustments) :
    (upd_brightness cb t adj).color = adj.color := by
  unfold upd_brightness; split_ifs <;> rfl

/-- The brightness block leaves the sharpness delta unchanged. -/
@[simp] theorem upd_brightness_sharpness (cb : ℚ) (t : String) (adj : Adjustments) :
    (upd_brightness cb t adj).sharpness = adj.sharpness := by
  unfold upd_brightness; split_ifs <;> rfl

/-- The brightness block leaves the warmth delta unchanged. -/
@[simp] theorem upd_brightness_warmth (cb : ℚ) (t : String) (adj : Adjustments) :
    (upd_brightness cb t adj).warmth = adj.warmth := by
  unfold upd_brightness; split_ifs <;> rfl

/-- The brightness block leaves the crop flag unchanged. -/
@[simp] theorem upd_brightness_crop (cb : ℚ) (t : String) (adj : Adjustments) :
    (upd_brightness cb t adj).crop_rule_thirds = adj.crop_rule_thirds := by
  unfold upd_brightness; split_ifs <;> rfl

/-- The contrast block leaves the brightness delta unchanged. -/
@[simp] theorem upd_contrast_brightness (cc : ℚ) (t : String) (adj : Adjustments) :
    (upd_contrast cc t adj).brightness = adj.brightness := by
  unfold upd_contrast; split_ifs <;> rfl

/-- The contrast block leaves the color delta unchanged. -/
@[simp] theorem upd_contrast_color (cc : ℚ) (t : String) (adj : Adjustments) :
    (upd_contrast cc t adj).color = adj.color := by
  unfold upd_contrast; split_ifs <;> rfl

/-- The contrast block leaves the sharpness delta unchanged. -/
@[simp] theorem upd_contrast_sharpness (cc : ℚ) (t : String) (adj : Adjustments) :
    (upd_contrast cc t adj).sharpness = adj.sharpness := by
  unfold upd_contrast; split_ifs <;> rfl

/-- The contrast block leaves the warmth delta unchanged. -/
@[simp] theorem upd_contrast_warmth (cc : ℚ) (t : String) (adj : Adjustments) :
    (upd_contrast cc t adj).warmth = adj.warmth := by
  unfold upd_contrast; split_ifs <;> rfl

/-- The contrast block leaves the crop flag unchanged. -/
@[simp] theorem upd_contrast_crop (cc : ℚ) (t : String) (adj : Adjustments) :
    (upd_contrast cc t adj).crop_rule_thirds = adj.crop_rule_thirds := by
  unfold upd_contrast; split_ifs <;> rfl

/-- The color block leaves the brightness delta unchanged. -/
@[simp] theorem upd_color_brightness (t : String) (adj : Adjustments) :
    (upd_color t adj).brightness = adj.brightness := by
  unfold upd_color; split_ifs <;> rfl

/-- The color block leaves the contrast delta unchanged. -/
@[simp] theorem upd_color_contrast (t : String) (adj : Adjustments) :
    (upd_color t adj).contrast = adj.contrast := by
  unfold upd_color; split_ifs <;> rfl

/-- The color block leaves the sharpness delta unchanged. -/
@[simp] theorem upd_color_sharpness (t : String) (adj : Adjustments) :
    (upd_color t adj).sharpness = adj.sharpness := by
  unfold upd_color; split_ifs <;> rfl

/-- The color block leaves the warmth delta unchanged. -/
@[simp] theorem upd_color_warmth (t : String) (adj : Adjustments) :
    (upd_color t adj).warmth = adj.warmth := by
  unfold upd_color; split_ifs <;> rfl

/-- The color block leaves the crop flag unchanged. -/
@[simp] theorem upd_color_crop (t : String) (adj : Adjustments) :
    (upd_color t adj).crop_rule_thirds = adj.crop_rule_thirds := by
  unfold upd_color; split_ifs <;> rfl

/-- The sharpness block leaves the brightness delta unchanged. -/
@[simp] theorem upd_sharpness_brightness (t : String) (adj : Adjustments) :
    (upd_sharpness t adj).brightness = adj.brightness := by
  unfold upd_sharpness; split_ifs <;> rfl

/-- The sharpness block leaves the contrast delta unchanged. -/
@[simp] theorem upd_sharpness_contrast (t : String) (adj : Adjustments) :
    (upd_sharpness t adj).contrast = adj.contrast := by
  unfold upd_sharpness; split_ifs <;> rfl

/-- The sharpness block leaves the color delta unchanged. -/
@[simp] theorem upd_sharpness_color (t : String) (adj : Adjustments) :
    (upd_sharpness t adj).color = adj.color := by
  unfold upd_sharpness; split_ifs <;> rfl

/-- The sharpness block leaves the warmth delta unchanged. -/
@[simp] theorem upd_sharpness_warmth (t : String) (adj : Adjustments) :
    (upd_sharpness t adj).warmth = adj.warmth := by
  unfold upd_sharpness; split_ifs <;> rfl

/-- The sharpness block leaves the crop flag unchanged. -/
@[simp] theorem upd_sharpness_crop (t : String) (adj : Adjustments) :
    (upd_sharpness t adj).crop_rule_thirds = adj.crop_rule_thirds := by
  unfold upd_sharpness; split_ifs <;> rfl

/-- The warmth block leaves the brightness delta unchanged. -/
@[simp] theorem upd_warmth_brightness (t : String) (adj : Adjustments) :
    (upd_warmth t adj).brightness = adj.brightness := by
  unfold upd_warmth; split_ifs <;> rfl

/-- The warmth block leaves the contrast delta unchanged. -/
@[simp] theorem upd_warmth_contrast (t : String) (adj : Adjustments) :
    (upd_warmth t adj).contrast = adj.contrast := by
  unfold upd_warmth; split_ifs <;> rfl

/-- The warmth block leaves the color delta unchanged. -/
@[simp] theorem upd_warmth_color (t : String) (adj : Adjustments) :
    (upd_warmth t adj).color = adj.color := by
  unfold upd_warmth; split_ifs <;> rfl

/-- The warmth block leaves the sharpness delta unchanged. -/
@[simp] theorem upd_warmth_sharpness (t : String) (adj : Adjustments) :
    (upd_warmth t adj).sharpness = adj.sharpness := by
  unfold upd_warmth; split_ifs <;> rfl

/-- The warmth block leaves the crop flag unchanged. -/
@[simp] theorem upd_warmth_crop (t : String) (adj : Adjustments) :
    (upd_warmth t adj).crop_rule_thirds = adj.crop_rule_thirds := by
  unfold upd_warmth; split_ifs <;> rfl

/-- The composition block leaves the brightness delta unchanged. -/
@[simp] theorem upd_composition_brightness (crt : ℚ) (t : String) (adj : Adjustments) :
    (upd_composition crt t adj).brightness = adj.brightness := by
  unfold upd_composition; split_ifs <;> rfl

/-- The composition block leaves the contrast delta unchanged. -/
@[simp] theorem upd_composition_contrast (crt : ℚ) (t : String) (adj : Adjustments) :
    (upd_composition crt t adj).contrast = adj.contrast := by
  unfold upd_composition; split_ifs <;> rfl

/-- The composition block leaves the color delta unchanged. -/
@[simp] theorem upd_composition_color (crt : ℚ) (t : String) (adj : Adjustments) :
    (upd_composition crt t adj).color = adj.color := by
  unfold upd_composition; split_ifs <;> rfl

/-- The composition block leaves the sharpness delta unchanged. -/
@[simp] theorem upd_composition_sharpness (crt : ℚ) (t : String) (adj : Adjustments) :
    (upd_composition crt t adj).sharpness = adj.sharpness := by
  unfold upd_composition; split_ifs <;> rfl

/-- The composition block leaves the warmth delta unchanged. -/
@[simp] theorem upd_composition_warmth (crt : ℚ) (t : String) (adj : Adjustments) :
    (upd_composition crt t adj).warmth = adj.warmth := by
  unfold upd_composition; split_ifs <;> rfl

/- Branch characterizations of the family blocks. -/

/-- Without a brightness keyword the brightness block is the identity. -/
theorem upd_brightness_not_kw (cb : ℚ) (t : String) (adj : Adjustments)
    (h : contains_kw t brightness_keywords = false) :
    upd_brightness cb t adj = adj := by
  simp [upd_brightness, h]

/-- With a brightness keyword and an increase word, the brightness block
assigns the increase clamp. -/
theorem upd_brightness_inc (cb : ℚ) (t : String) (adj : Adjustments)
    (h1 : contains_kw t brightness_keywords = true)
    (h2 : contains_kw t brightness_increase_words = true) :
    (upd_brightness cb t adj).brightness = max (1/10) (min (1/2) (1 - cb)) := by
  simp [upd_brightness, h1, h2]

/-- With a brightness keyword, no increase word and a decrease word, the
brightness block assigns the decrease clamp. -/
theorem upd_brightness_dec (cb : ℚ) (t : String) (adj : Adjustments)
    (h1 : contains_kw t brightness_keywords = true)
    (h2 : contains_kw t brightness_increase_words = false)
    (h3 : contains_kw t brightness_decrease_words = true) :
    (upd_brightness cb t adj).brightness
      = max (-(1/2)) (min (-(1/10)) (0 - cb)) := by
  simp [upd_brightness, h1, h2, h3]

/-- With neither direction word the brightness block is the identity. -/
theorem upd_brightness_no_dir (cb : ℚ) (t : String) (adj : Adjustments)
    (h2 : contains_kw t brightness_increase_words = false)
    (h3 : contains_kw t brightness_decrease_words = false) :
    upd_brightness cb t adj = adj := by
  simp [upd_brightness, h2, h3]

/-- Without a contrast keyword the contrast block is the identity. -/
theorem upd_contrast_not_kw (cc : ℚ) (t : String) (adj : Adjustments)
    (h : contains_kw t contrast_keywords = false) :
    upd_contrast cc t adj = adj := by
  simp [upd_contrast, h]

/-- With a contrast keyword and an increase word, the contrast block assigns
the increase clamp. -/
theorem upd_contrast_inc (cc : ℚ) (t : String) (adj : Adjustments)
    (h1 : contains_kw t contrast_keywords = true)
    (h2 : contains_kw t contrast_increase_words = true) :
    (upd_contrast cc t adj).contrast = max (1/10) (min (7/10) (1 - cc)) := by
  simp [upd_contrast, h1, h2]

/-- With a contrast keyword, no increase word and a decrease word, the
contrast block assigns the decrease clamp. -/
theorem upd_contrast_dec (cc : ℚ) (t : String) (adj : Adjustments)
    (h1 : contains_kw t contrast_keywords = true)
    (h2 : contains_kw t contrast_increase_words = false)
    (h3 : contains_kw t contrast_decrease_words = true) :
    (upd_contrast cc t adj).contrast = max (-(3/10)) (min (-(1/10)) (0 - cc)) := by
  simp [upd_contrast, h1, h2, h3]

/-- With neither direction word the contrast block is the identity. -/
theorem upd_contrast_no_dir (cc : ℚ) (t : String) (adj : Adjustments)
    (h2 : contains_kw t contrast_increase_words = false)
    (h3 : contains_kw t contrast_decrease_words = false) :
    upd_contrast cc t adj = adj := by
  simp [upd_contrast, h2, h3]

/-- Without a color keyword the color block is the identity. -/
theorem upd_color_not_kw (t : String) (adj : Adjustments)
    (h : contains_kw t color_keywords = false) :
    upd_color t adj = adj := by
  simp [upd_color, h]

/-- With a color keyword and an increase word, the color block assigns
0.3. -/
theorem upd_color_inc (t : String) (adj : Adjustments)
    (h1 : contains_kw t color_keywords = true)
    (h2 : contains_kw t color_increase_words = true) :
    (upd_color t adj).color = 3/10 := by
  simp [upd_color, h1, h2]

/-- With a color keyword, no increase word and a decrease word, the color
block assigns −0.2. -/
theorem upd_color_dec (t : String) (adj : Adjustments)
    (h1 : contains_kw t color_keywords = true)
    (h2 : contains_kw t color_increase_words = false)
    (h3 : contains_kw t color_decrease_words = true) :
    (upd_color t adj).color = -(2/10) := by
  simp [upd_color, h1, h2, h3]

/-- With neither direction word the color block is the identity. -/
theorem upd_color_no_dir (t : String) (adj : Adjustments)
    (h2 : contains_kw t color_increase_words = false)
    (h3 : contains_kw t color_decrease_words = false) :
    upd_color t adj = adj := by
  simp [upd_color, h2, h3]

/-- Without a sharpness keyword the sharpness block is the identity. -/
theorem upd_sharpness_not_kw (t : String) (adj : Adjustments)
    (h : contains_kw t sharpness_keywords = false) :
    upd_sharpness t adj = adj := by
  simp [upd_sharpness, h]

/-- With a sharpness keyword and an increase word, the sharpness block
assigns 0.5. -/
theorem upd_sharpness_inc (t : String) (adj : Adjustments)
    (h1 : contains_kw t sharpness_keywords = true)
    (h2 : contains_kw t sharpness_increase_words = true) :
    (upd_sharpness t adj).sharpness = 1/2 := by
  simp [upd_sharpness, h1, h2]

/-- With a sharpness keyword, no increase word and a decrease word, the
sharpness block assigns −0.2. -/
theorem upd_sharpness_dec (t : String) (adj : Adjustments)
    (h1 : contains_kw t sharpness_keywords = true)
    (h2 : contains_kw t sharpness_increase_words = false)
    (h3 : contains_kw t sharpness_decrease_words = true) :
    (upd_sharpness t adj).sharpness = -(2/10) := by
  simp [upd_sharpness, h1, h2, h3]

/-- With neither direction word the sharpness block is the identity. -/
theorem upd_sharpness_no_dir (t : String) (adj : Adjustments)
    (h2 : contains_kw t sharpness_increase_words = false)
    (h3 : contains_kw t sharpness_decrease_words = false) :
    upd_sharpness t adj = adj := by
  simp [upd_sharpness, h2, h3]

/-- Without a warmth keyword the warmth block is the identity. -/
theorem upd_warmth_not_kw (t : String) (adj : Adjustments)
    (h : contains_kw t warmth_keywords = false) :
    upd_warmth t adj = adj := by
  simp [upd_warmth, h]

/-- With a warmth keyword and an increase word, the warmth block assigns
0.2. -/
theorem upd_warmth_inc (t : String) (adj : Adjustments)
    (h1 : contains_kw t warmth_keywords = true)
    (h2 : contains_kw t warmth_increase_words = true) :
    (upd_warmth t adj).warmth = 2/10 := by
  simp [upd_warmth, h1, h2]

/-- With a warmth keyword, no increase word and a decrease word, the warmth
block assigns −0.2. -/
theorem upd_warmth_dec (t : String) (adj : Adjustments)
    (h1 : contains_kw t warmth_keywords = true)
    (h2 : contains_kw t warmth_increase_words = false)
    (h3 : contains_kw t warmth_decrease_words = true) :
    (upd_warmth t adj).warmth = -(2/10) := by
  simp [upd_warmth, h1, h2, h3]

/-- With neither direction word the warmth block is the identity. -/
theorem upd_warmth_no_dir (t : String) (adj : Adjustments)
    (h2 : contains_kw t warmth_increase_words = false)
    (h3 : contains_kw t warmth_decrease_words = false) :
    upd_warmth t adj = adj := by
  simp [upd_warmth, h2, h3]

/-- The composition block only ever raises the crop flag. -/
theorem upd_composition_crop_mono (crt : ℚ) (t : String) (adj : Adjustments)
    (h : adj.crop_rule_thirds = true) :
    (upd_composition crt t adj).crop_rule_thirds = true := by
  unfold upd_composition; split_ifs <;> simp [h]

/-- When the current rule-of-thirds score is at least 0.4 the composition
block is the identity. -/
theorem upd_composition_high (crt : ℚ) (t : String) (adj : Adjustments)
    (h : 2/5 ≤ crt) :
    upd_composition crt t adj = adj := by
  unfold upd_composition
  split_ifs with h1 h2 h3
  · exact absurd h3 (not_lt.mpr h)
  all_goals rfl

/-- When the lowered suggestion contains a composition keyword, one of the
two rule-of-thirds phrases, and the current score is below 0.4, the
composition block raises the crop flag. -/
theorem upd_composition_sets (crt : ℚ) (t : String) (adj : Adjustments)
    (h1 : contains_kw t composition_keywords = true)
    (h2 : (str_in "rule of thirds" t || str_in "regra dos terços" t) = true)
    (h3 : crt < 2/5) :
    (upd_composition crt t adj).crop_rule_thirds = true := by
  simp [upd_composition, h1, h2, h3]

/- Lemmas about a whole iteration of the suggestion loop. -/

/-- One loop iteration only ever raises the crop flag. -/
theorem apply_suggestion_crop_mono (a : AnalysisMetrics) (adj : Adjustments)
    (s : String) (h : adj.crop_rule_thirds = true) :
    (apply_suggestion a adj s).crop_rule_thirds = true := by
  unfold apply_suggestion
  exact upd_composition_crop_mono _ _ _ (by simp [h])

/-- When the analysis rule-of-thirds score is at least 0.4, one loop
iteration leaves the crop flag unchanged. -/
theorem apply_suggestion_crop_high (a : AnalysisMetrics) (adj : Adjustments)
    (s : String) (h : 2/5 ≤ a.rule_of_thirds) :
    (apply_suggestion a adj s).crop_rule_thirds = adj.crop_rule_thirds := by
  unfold apply_suggestion
  rw [upd_composition_high _ _ _ h]
  simp

/-- A suggestion that writes a family assigns it the value determined by
the suggestion and the analysis alone, independent of the accumulated
adjustments. -/
theorem fam_delta_write (a : AnalysisMetrics) (adj : Adjustments) (s : String)
    (f : Fam) (h : fam_writes f s = true) :
    fam_delta f (apply_suggestion a adj s) = fam_value a f s := by
  cases f with
  | brightness =>
    rw [fam_writes, Bool.and_eq_true, Bool.or_eq_true] at h
    obtain ⟨h1, h2⟩ := h
    rw [fam_keywords] at h1
    rw [fam_increase_words, fam_decrease_words] at h2
    have hpres : fam_delta Fam.brightness (apply_suggestion a adj s)
        = (upd_brightness (a.brightness / 255) (to_lower s) adj).brightness := by
      simp [apply_suggestion, fam_delta]
    rw [hpres]
    by_cases hinc : contains_kw (to_lower s) brightness_increase_words = true
    · rw [upd_brightness_inc _ _ _ h1 hinc]
      simp [fam_value, fam_increase_words, hinc, fam_inc_value]
    · have hinc' : contains_kw (to_lower s) brightness_increase_words = false :=
        Bool.not_eq_true _ ▸ eq_false_of_ne_true hinc
      have hdec : contains_kw (to_lower s) brightness_decrease_words = true := by
        rcases h2 with h2 | h2
        · exact absurd h2 hinc
        · exact h2
      rw [upd_brightness_dec _ _ _ h1 hinc' hdec]
      simp [fam_value, fam_increase_words, hinc', fam_dec_value]
  | contrast =>
    rw [fam_writes, Bool.and_eq_true, Bool.or_eq_true] at h
    obtain ⟨h1, h2⟩ := h
    rw [fam_keywords] at h1
    rw [fam_increase_words, fam_decrease_words] at h2
    have hpres : fam_delta Fam.contrast (apply_suggestion a adj s)
        = (upd_contrast a.contrast (to_lower s)
            (upd_brightness (a.brightness / 255) (to_lower s) adj)).contrast := by
      simp [apply_suggestion, fam_delta]
    rw [hpres]
    by_cases hinc : contains_kw (to_lower s) contrast_increase_words = true
    · rw [upd_contrast_inc _ _ _ h1 hinc]
      simp [fam_value, fam_increase_words, hinc, fam_inc_value]
    · have hinc' : contains_kw (to_lower s) contrast_increase_words = false :=
        eq_false_of_ne_true hinc
      have hdec : contains_kw (to_lower s) contrast_decrease_words = true := by
        rcases h2 with h2 | h2
        · exact absurd h2 hinc
        · exact h2
      rw [upd_contrast_dec _ _ _ h1 hinc' hdec]
      simp [fam_value, fam_increase_words, hinc', fam_dec_value]
  | color =>
    rw [fam_writes, Bool.and_eq_true, Bool.or_eq_true] at h
    obtain ⟨h1, h2⟩ := h
    rw [fam_keywords] at h1
    rw [fam_increase_words, fam_decrease_words] at h2
    have hpres : fam_delta Fam.color (apply_suggestion a adj s)
        = (upd_color (to_lower s)
            (upd_contrast a.contrast (to_lower s)
              (upd_brightness (a.brightness / 255) (to_lower s) adj))).color := by
      simp [apply_suggestion, fam_delta]
    rw [hpres]
    by_cases hinc : contains_kw (to_lower s) color_increase_words = true
    · rw [upd_color_inc _ _ h1 hinc]
      simp [fam_value, fam_increase_words, hinc, fam_inc_value]
    · have hinc' : contains_kw (to_lower s) color_increase_words = false :=
        eq_false_of_ne_true hinc
      have hdec : contains_kw (to_lower s) color_decrease_words = true := by
        rcases h2 with h2 | h2
        · exact absurd h2 hinc
        · exact h2
      rw [upd_color_dec _ _ h1 hinc' hdec]
      simp [fam_value, fam_increase_words, hinc', fam_dec_value]
  | sharpness =>
    rw [fam_writes, Bool.and_eq_true, Bool.or_eq_true] at h
    obtain ⟨h1, h2⟩ := h
    rw [fam_keywords] at h1
    rw [fam_increase_words, fam_decrease_words] at h2
    have hpres : fam_delta Fam.sharpness (apply_suggestion a adj s)
        = (upd_sharpness (to_lower s)
            (upd_color (to_lower s)
              (upd_contrast a.contrast (to_lower s)
                (upd_brightness (a.brightness / 255) (to_lower s) adj)))).sharpness := by
      simp [apply_suggestion, fam_delta]
    rw [hpres]
    by_cases hinc : contains_kw (to_lower s) sharpness_increase_words = true
    · rw [upd_sharpness_inc _ _ h1 hinc]
      simp [fam_value, fam_increase_words, hinc, fam_inc_value]
    · have hinc' : contains_kw (to_lower s) sharpness_increase_words = false :=
        eq_false_of_ne_true hinc
      have hdec : contains_kw (to_lower s) sharpness_decrease_words = true := by
        rcases h2 with h2 | h2
        · exact absurd h2 hinc
        · exact h2
      rw [upd_sharpness_dec _ _ h1 hinc' hdec]
      simp [fam_value, fam_increase_words, hinc', fam_dec_value]
  | warmth =>
    rw [fam_writes, Bool.and_eq_true, Bool.or_eq_true] at h
    obtain ⟨h1, h2⟩ := h
    rw [fam_keywords] at h1
    rw [fam_increase_words, fam_decrease_words] at h2
    have hpres : fam_delta Fam.warmth (apply_suggestion a adj s)
        = (upd_warmth (to_lower s)
            (upd_sharpness (to_lower s)
              (upd_color (to_lower s)
                (upd_contrast a.contrast (to_lower s)
                  (upd_brightness (a.brightness / 255) (to_lower s) adj))))).warmth := by
      simp [apply_suggestion, fam_delta]
    rw [hpres]
    by_cases hinc : contains_kw (to_lower s) warmth_increase_words = true
    · rw [upd_warmth_inc _ _ h1 hinc]
      simp [fam_value, fam_increase_words, hinc, fam_inc_value]
    · have hinc' : contains_kw (to_lower s) warmth_increase_words = false :=
        eq_false_of_ne_true hinc
      have hdec : contains_kw (to_lower s) warmth_decrease_words = true := by
        rcases h2 with h2 | h2
        · exact absurd h2 hinc
        · exact h2
      rw [upd_warmth_dec _ _ h1 hinc' hdec]
      simp [fam_value, fam_increase_words, hinc', fam_dec_value]

/-- A suggestion that does not write a family leaves its delta unchanged. -/
theorem fam_delta_skip (a : AnalysisMetrics) (adj : Adjustments) (s : String)
    (f : Fam) (h : fam_writes f s = false) :
    fam_delta f (apply_suggestion a adj s) = fam_delta f adj := by
  rw [fam_writes, Bool.and_eq_false_iff] at h
  cases f with
  | brightness =>
    have hb : (upd_brightness (a.brightness / 255) (to_lower s) adj).brightness
        = adj.brightness := by
      rcases h with h | h
      · rw [upd_brightness_not_kw _ _ _ (by simpa [fam_keywords] using h)]
      · rw [Bool.or_eq_false_iff] at h
        rw [fam_increase_words, fam_decrease_words] at h
        rw [upd_brightness_no_dir _ _ _ h.1 h.2]
    simp [apply_suggestion, fam_delta, hb]
  | contrast =>
    have hb : ∀ adj' : Adjustments,
        (upd_contrast a.contrast (to_lower s) adj').contrast = adj'.contrast := by
      intro adj'
      rcases h with h | h
      · rw [upd_contrast_not_kw _ _ _ (by simpa [fam_keywords] using h)]
      · rw [Bool.or_eq_false_iff] at h
        rw [fam_increase_words, fam_decrease_words] at h
        rw [upd_contrast_no_dir _ _ _ h.1 h.2]
    simp [apply_suggestion, fam_delta, hb]
  | color =>
    have hb : ∀ adj' : Adjustments,
        (upd_color (to_lower s) adj').color = adj'.color := by
      intro adj'
      rcases h with h | h
      · rw [upd_color_not_kw _ _ (by simpa [fam_keywords] using h)]
      · rw [Bool.or_eq_false_iff] at h
        rw [fam_increase_words, fam_decrease_words] at h
        rw [upd_color_no_dir _ _ h.1 h.2]
    simp [apply_suggestion, fam_delta, hb]
  | sharpness =>
    have hb : ∀ adj' : Adjustments,
        (upd_sharpness (to_lower s) adj').sharpness = adj'.sharpness := by
      intro adj'
      rcases h with h | h
      · rw [upd_sharpness_not_kw _ _ (by simpa [fam_keywords] using h)]
      · rw [Bool.or_eq_false_iff] at h
        rw [fam_increase_words, fam_decrease_words] at h
        rw [upd_sharpness_no_dir _ _ h.1 h.2]
    simp [apply_suggestion, fam_delta, hb]
  | warmth =>
    have hb : ∀ adj' : Adjustments,
        (upd_warmth (to_lower s) adj').warmth = adj'.warmth := by
      intro adj'
      rcases h with h | h
      · rw [upd_warmth_not_kw _ _ (by simpa [fam_keywords] using h)]
      · rw [Bool.or_eq_false_iff] at h
        rw [fam_increase_words, fam_decrease_words] at h
        rw [upd_warmth_no_dir _ _ h.1 h.2]
    simp [apply_suggestion, fam_delta, hb]

/- Lemmas about the whole fold of the suggestion loop. -/

/-- Folding suggestions that never write a family leaves its delta
unchanged. -/
theorem foldl_fam_skip (a : AnalysisMetrics) (f : Fam) :
    ∀ ss : List String, ∀ adj : Adjustments,
      (∀ s ∈ ss, fam_writes f s = false) →
      fam_delta f (ss.foldl (apply_suggestion a) adj) = fam_delta f adj := by
  intro ss
  induction ss with
  | nil => intro adj _; rfl
  | cons s ss ih =>
      intro adj h
      rw [List.foldl_cons, ih _ (fun s' hs' => h s' (List.mem_cons_of_mem _ hs')),
        fam_delta_skip _ _ _ _ (h s (List.mem_cons_self s ss))]

/-- Folding any suggestions preserves a raised crop flag. -/
theorem foldl_crop_mono (a : AnalysisMetrics) :
    ∀ ss : List String, ∀ adj : Adjustments, adj.crop_rule_thirds = true →
      (ss.foldl (apply_suggestion a) adj).crop_rule_thirds = true := by
  intro ss
  induction ss with
  | nil => intro adj h; exact h
  | cons s ss ih =>
      intro adj h
      rw [List.foldl_cons]
      exact ih _ (apply_suggestion_crop_mono _ _ _ h)

/-- When the analysis rule-of-thirds score is at least 0.4, the fold leaves
the crop flag unchanged. -/
theorem foldl_crop_high (a : AnalysisMetrics) (h : 2/5 ≤ a.rule_of_thirds) :
    ∀ ss : List String, ∀ adj : Adjustments,
      (ss.foldl (apply_suggestion a) adj).crop_rule_thirds = adj.crop_rule_thirds := by
  intro ss
  induction ss with
  | nil => intro adj; rfl
  | cons s ss ih =>
      intro adj
      rw [List.foldl_cons, ih, apply_suggestion_crop_high _ _ _ h]

/- Claim theorems. -/

/-- Cast inequality behind the corrected 80%-crop bound: a natural number
equal to `n * 4 / 5` is within one pixel below 80% of `n`. -/
theorem floor_four_fifths_gt (n d : ℕ) (hd : d = n * 4 / 5) :
    (8/10 : ℚ) * n - 1 < (d : ℚ) := by
  have h5 : n * 4 < 5 * d + 5 := by omega
  have h5' : (n : ℚ) * 4 < 5 * (d : ℚ) + 5 := by exact_mod_cast h5
  linarith

/-- C1 (amended): for every image with positive width and height, the crop
window of `_crop_for_rule_of_thirds` stays within the image bounds, and the
cropped output measures exactly `⌊0.8·dimension⌋` per axis — which is within
one pixel below 80% of the original, but (because `int(img_w * 0.8)`
truncates) not always at least 80% as the claim states. -/
theorem C1_crop_window_bounds (img_w img_h cx cy : ℕ)
    (hw : 0 < img_w) (hh : 0 < img_h) :
    (crop_window img_w img_h cx cy).x1 ≤ (crop_window img_w img_h cx cy).x2 ∧
    (crop_window img_w img_h cx cy).x2 ≤ img_w ∧
    (crop_window img_w img_h cx cy).y1 ≤ (crop_window img_w img_h cx cy).y2 ∧
    (crop_window img_w img_h cx cy).y2 ≤ img_h ∧
    (crop_window img_w img_h cx cy).x2 - (crop_window img_w img_h cx cy).x1
      = img_w * 4 / 5 ∧
    (crop_window img_w img_h cx cy).y2 - (crop_window img_w img_h cx cy).y1
      = img_h * 4 / 5 ∧
    (8/10 : ℚ) * img_w - 1
      < (((crop_window img_w img_h cx cy).x2
          - (crop_window img_w img_h cx cy).x1 : ℕ) : ℚ) ∧
    (8/10 : ℚ) * img_h - 1
      < (((crop_window img_w img_h cx cy).y2
          - (crop_window img_w img_h cx cy).y1 : ℕ) : ℚ) := by
  unfold crop_window
  dsimp only
  split_ifs <;>
    exact ⟨by omega, by omega, by omega, by omega, by omega, by omega,
      floor_four_fifths_gt _ _ (by omega), floor_four_fifths_gt _ _ (by omega)⟩

/-- Witness for C1: on a 6×6 image with subject center (0, 0) the window is
`[0, 4) × [0, 4)`, inside bounds, with both output dimensions `⌊0.8·6⌋ = 4`. -/
theorem C1_crop_window_bounds_witness :
    0 < 6 ∧
    (crop_window 6 6 0 0).x2 - (crop_window 6 6 0 0).x1 = 6 * 4 / 5 ∧
    (crop_window 6 6 0 0).x2 ≤ 6 :=
  ⟨by decide, (C1_crop_window_bounds 6 6 0 0 (by decide) (by decide)).2.2.2.2.1,
    (C1_crop_window_bounds 6 6 0 0 (by decide) (by decide)).2.1⟩

/-- Counterexample to C1 as stated: cropping a 6×6 image whose detected
subject (a largest-contour bounding rectangle such as `(0,0,1,1)`) has
center (0, 0) produces a 4-pixel-wide output, and 4 < 0.8 · 6 = 4.8, so the
output width is below 80% of the original width. -/
theorem C1_counterexample :
    (((crop_window 6 6 0 0).x2 - (crop_window 6 6 0 0).x1 : ℕ) : ℚ)
      < 8/10 * 6 := by
  have h : (crop_window 6 6 0 0).x2 - (crop_window 6 6 0 0).x1 = 4 := by decide
  rw [h]
  norm_num

/-- C2: with the crop flag set, `_apply_enhancements` calls
`self._crop_for_rule_of_thirds(image)`, but line 158 of
`image-enhancer.py` defines `_crop_for_rule_of_thirds` at module level
(column 0), outside `class ImageEnhancer`, so the attribute lookup raises
`AttributeError` — even when edge detection finds no contours
(`find_subject` returns `none` here), where the claim and the function's own
body say the image is returned unchanged. -/
theorem C2_crop_raises_attribute_error :
    dummy_ops.find_subject img_one = none ∧
    apply_enhancements dummy_ops img_one crop_only_adjustments gray_metrics
      = Except.error PyErr.attributeError := by
  constructor
  · rfl
  · have hc : "_crop_for_rule_of_thirds" ∉ image_enhancer_methods := by decide
    simp [apply_enhancements, crop_only_adjustments, zero_adjustments, hc]

/-- C3: for every suggestion list and every analysis whose rule-of-thirds
score is at least 0.4, `_parse_suggestions` leaves the crop flag false. -/
theorem C3_no_crop_when_score_high (ss : List String) (a : AnalysisMetrics)
    (h : 2/5 ≤ a.rule_of_thirds) :
    (parse_suggestions ss a).crop_rule_thirds = false := by
  unfold parse_suggestions
  rw [foldl_crop_high a h]
  rfl

/-- Witness for C3 at score exactly 0.4 with an explicit rule-of-thirds
suggestion. -/
theorem C3_no_crop_when_score_high_witness :
    (2/5 : ℚ) ≤ 2/5 ∧
    (parse_suggestions ["the composition needs rule of thirds work"]
      { brightness := 128, contrast := 0, rule_of_thirds := 2/5 }).crop_rule_thirds
      = false :=
  ⟨le_refl _, C3_no_crop_when_score_high _ _ (le_refl _)⟩

/-- C4: `_apply_enhancements` with the zero adjustments (all five deltas 0,
crop flag false) skips every transform and returns the input image
unchanged. -/
theorem C4_zero_vector_identity (ops : LibOps) (image : Img)
    (a : AnalysisMetrics) (hw : 0 < image.w) (hh : 0 < image.h) :
    apply_enhancements ops image zero_adjustments a = Except.ok image := by
  simp [apply_enhancements, zero_adjustments]

/-- Witness for C4 on the 1×1 black image. -/
theorem C4_zero_vector_identity_witness :
    0 < img_one.w ∧ 0 < img_one.h ∧
    apply_enhancements dummy_ops img_one zero_adjustments gray_metrics
      = Except.ok img_one :=
  ⟨by decide, by decide,
    C4_zero_vector_identity dummy_ops img_one gray_metrics (by decide) (by decide)⟩

/-- C5 (amended): a suggestion containing a brightness keyword and an
increase word gets `brightnessDelta = clamp(1 − b/255, 0.1, 0.5)`; one
containing a brightness keyword and a decrease word but — as forced by the
`elif` — no increase word gets `clamp(0 − b/255, −0.5, −0.1)`. -/
theorem C5_brightness_delta (s : String) (b c r : ℚ)
    (hb0 : 0 ≤ b) (hb1 : b ≤ 255) :
    (contains_kw (to_lower s) brightness_keywords = true →
      contains_kw (to_lower s) brightness_increase_words = true →
      (parse_suggestions [s]
        { brightness := b, contrast := c, rule_of_thirds := r }).brightness
        = max (1/10) (min (1/2) (1 - b / 255))) ∧
    (contains_kw (to_lower s) brightness_keywords = true →
      contains_kw (to_lower s) brightness_increase_words = false →
      contains_kw (to_lower s) brightness_decrease_words = true →
      (parse_suggestions [s]
        { brightness := b, contrast := c, rule_of_thirds := r }).brightness
        = max (-(1/2)) (min (-(1/10)) (0 - b / 255))) := by
  constructor
  · intro h1 h2
    show (apply_suggestion ⟨b, c, r⟩ zero_adjustments s).brightness = _
    simp only [apply_suggestion, upd_composition_brightness, upd_warmth_brightness,
      upd_sharpness_brightness, upd_color_brightness, upd_contrast_brightness]
    exact upd_brightness_inc _ _ _ h1 h2
  · intro h1 h2 h3
    show (apply_suggestion ⟨b, c, r⟩ zero_adjustments s).brightness = _
    simp only [apply_suggestion, upd_composition_brightness, upd_warmth_brightness,
      upd_sharpness_brightness, upd_color_brightness, upd_contrast_brightness]
    exact upd_brightness_dec _ _ _ h1 h2 h3

/-- Witness for C5: `"increase brightness"` at brightness 128 yields
`clamp(1 − 128/255, 0.1, 0.5) = 127/255 ≈ 0.498`. -/
theorem C5_brightness_delta_witness :
    (0 : ℚ) ≤ 128 ∧ (128 : ℚ) ≤ 255 ∧
    contains_kw (to_lower "increase brightness") brightness_keywords = true ∧
    contains_kw (to_lower "increase brightness") brightness_increase_words = true ∧
    (parse_suggestions ["increase brightness"]
      { brightness := 128, contrast := 0, rule_of_thirds := 0 }).brightness
      = max (1/10) (min (1/2) (1 - 128 / 255)) ∧
    max ((1:ℚ)/10) (min (1/2) (1 - 128 / 255)) = 127/255 :=
  ⟨by norm_num, by norm_num, by decide, by decide,
    (C5_brightness_delta "increase brightness" 128 0 0 (by norm_num)
      (by norm_num)).1 (by decide) (by decide),
    by norm_num [max_def, min_def]⟩

/-- Counterexample to C5 as stated: `"more darker exposure"` contains a
brightness keyword and the decrease word `"darker"`, yet — because the
increase word `"more"` is also present and the `if` branch wins over the
`elif` — the assigned delta is the increase clamp `127/255`, not the
decrease clamp required by the claim's decrease sentence. -/
theorem C5_counterexample :
    contains_kw (to_lower "more darker exposure") brightness_keywords = true ∧
    contains_kw (to_lower "more darker exposure") brightness_decrease_words = true ∧
    (parse_suggestions ["more darker exposure"]
      { brightness := 128, contrast := 0, rule_of_thirds := 0 }).brightness
      = max (1/10) (min (1/2) (1 - 128 / 255)) ∧
    max ((1:ℚ)/10) (min (1/2) (1 - 128 / 255))
      ≠ max (-(1/2)) (min (-(1/10)) (0 - 128 / 255)) := by
  refine ⟨by decide, by decide, ?_, by norm_num [max_def, min_def]⟩
  show (apply_suggestion ⟨128, 0, 0⟩ zero_adjustments "more darker exposure").brightness = _
  simp only [apply_suggestion, upd_composition_brightness, upd_warmth_brightness,
    upd_sharpness_brightness, upd_color_brightness, upd_contrast_brightness]
  exact upd_brightness_inc _ _ _ (by decide) (by decide)

/-- Supporting fact for C6: with no edge pixels at all,
`_analyze_rule_of_thirds` returns score 0 through the early guard, with no
division. -/
theorem analyze_rule_of_thirds_no_edges (h w : ℕ) (e : ℕ → ℕ → Bool)
    (htot : edge_count e 0 w 0 h = 0) :
    analyze_rule_of_thirds h w e = Except.ok (NpVal.fin 0) := by
  simp [analyze_rule_of_thirds, htot]

/-- Score tail of `_analyze_rule_of_thirds`: for a nonnegative float64
numerator over a positive denominator, divided again by twice a nonnegative
expected proportion, `min(1.0, ...)` always yields a finite value in
`[0, 1]` — the zero-denominator cases produce nan or `+inf`, which the
`min` collapses to `1.0`. -/
theorem score_in_unit_interval_aux (A T E : ℚ) (hA : 0 ≤ A) (hT : 0 < T)
    (hE : 0 ≤ E) :
    ∃ q : ℚ, (Except.ok (py_min_one (np_div_l (np_div A T) (E * 2)))
        : Except PyErr NpVal) = Except.ok (NpVal.fin q) ∧ 0 ≤ q ∧ q ≤ 1 := by
  have hnd : ∀ a b : ℚ, np_div a b
      = if b = 0 then
          (if a = 0 then NpVal.nan else if a > 0 then NpVal.inf else NpVal.ninf)
        else NpVal.fin (a / b) := fun a b => rfl
  have hpm : ∀ z : ℚ, py_min_one (NpVal.fin z)
      = if z < 1 then NpVal.fin z else NpVal.fin 1 := fun z => rfl
  have hT' : T ≠ 0 := ne_of_gt hT
  have hx : 0 ≤ A / T := div_nonneg hA (le_of_lt hT)
  rw [show np_div A T = NpVal.fin (A / T) from by rw [hnd, if_neg hT']]
  rw [show np_div_l (NpVal.fin (A / T)) (E * 2) = np_div (A / T) (E * 2) from rfl]
  by_cases hb : E * 2 = 0
  · by_cases hz : A / T = 0
    · rw [show np_div (A / T) (E * 2) = NpVal.nan from by
        rw [hnd, if_pos hb, if_pos hz]]
      exact ⟨1, rfl, by norm_num, le_refl 1⟩
    · have hpos : 0 < A / T := lt_of_le_of_ne hx (Ne.symm hz)
      rw [show np_div (A / T) (E * 2) = NpVal.inf from by
        rw [hnd, if_pos hb, if_neg hz, if_pos hpos]]
      exact ⟨1, rfl, by norm_num, le_refl 1⟩
  · have hb' : 0 < E * 2 :=
      lt_of_le_of_ne (mul_nonneg hE (by norm_num)) (Ne.symm hb)
    rw [show np_div (A / T) (E * 2) = NpVal.fin (A / T / (E * 2)) from by
      rw [hnd, if_neg hb]]
    have hq0 : 0 ≤ A / T / (E * 2) := div_nonneg hx (le_of_lt hb')
    by_cases h1q : A / T / (E * 2) < 1
    · exact ⟨A / T / (E * 2), by rw [hpm, if_pos h1q], hq0, le_of_lt h1q⟩
    · exact ⟨1, by rw [hpm, if_neg h1q], by norm_num, le_refl 1⟩

/-- C6: with zero edge pixels `_analyze_rule_of_thirds` returns exactly 0
through the early guard; and for every edge map the function returns — with
no division error — a finite score in `[0, 1]`: the numpy float64 divisions
never raise, the degenerate `0.0/0.0` of thin images yields nan, and
`min(1.0, nan) = 1.0`. -/
theorem C6_score_in_unit_interval (h w : ℕ) (e : ℕ → ℕ → Bool) :
    (edge_count e 0 w 0 h = 0 →
      analyze_rule_of_thirds h w e = Except.ok (NpVal.fin 0)) ∧
    ∃ q : ℚ, analyze_rule_of_thirds h w e = Except.ok (NpVal.fin q) ∧
      0 ≤ q ∧ q ≤ 1 := by
  constructor
  · intro htot
    simp [analyze_rule_of_thirds, htot]
  · by_cases htot : edge_count e 0 w 0 h = 0
    · exact ⟨0, by simp [analyze_rule_of_thirds, htot], le_refl 0, by norm_num⟩
    · have hw0 : w ≠ 0 := fun hw' => htot (by simp [edge_count, hw'])
      have hh0 : h ≠ 0 := fun hh' => htot (by simp [edge_count, hh'])
      have hTP : ((h * w : ℕ) : ℚ) ≠ 0 :=
        Nat.cast_ne_zero.mpr (Nat.mul_ne_zero hh0 hw0)
      have hT : (0:ℚ) < ((edge_count e 0 w 0 h : ℕ) : ℚ) := by
        exact_mod_cast Nat.pos_of_ne_zero htot
      have hexp : ∀ RP : ℚ, pyDiv RP ((h * w : ℕ) : ℚ)
          = Except.ok (RP / ((h * w : ℕ) : ℚ)) := by
        intro RP
        rw [show pyDiv RP ((h * w : ℕ) : ℚ)
            = if ((h * w : ℕ) : ℚ) = 0 then Except.error PyErr.zeroDivision
              else Except.ok (RP / ((h * w : ℕ) : ℚ)) from rfl, if_neg hTP]
      simp only [analyze_rule_of_thirds]
      rw [if_neg htot, hexp]
      exact score_in_unit_interval_aux _ _ _ (Nat.cast_nonneg _) hT
        (div_nonneg (by positivity) (Nat.cast_nonneg _))

/-- Witness for C6 on a 5×5 all-black edge map: zero edges give score
exactly 0. -/
theorem C6_score_in_unit_interval_witness :
    edge_count (fun _ _ => false) 0 5 0 5 = 0 ∧
    analyze_rule_of_thirds 5 5 (fun _ _ => false)
      = Except.ok (NpVal.fin 0) :=
  ⟨by decide, (C6_score_in_unit_interval 5 5 (fun _ _ => false)).1 (by decide)⟩

/-- Supporting evaluation for C6 on the thin-image edge case: a 5×5 edge map
with one edge pixel makes `region_size = 0`, the final division is
`0.0 / 0.0 = nan`, and `min(1.0, nan)` returns score `1.0` — inside
`[0, 1]`, with no exception. -/
theorem analyze_rule_of_thirds_thin_image :
    analyze_rule_of_thirds 5 5 edges_5x5 = Except.ok (NpVal.fin 1) := by
  have h1 : edge_count edges_5x5 0 5 0 5 = 1 := by decide
  have h2 : (min 5 5 : ℕ) / 10 = 0 := by decide
  have h3 : edge_count edges_5x5 1 1 1 1 = 0 := by decide
  have h4 : edge_count edges_5x5 2 2 1 1 = 0 := by decide
  have h5 : edge_count edges_5x5 1 1 2 2 = 0 := by decide
  have h6 : edge_count edges_5x5 2 2 2 2 = 0 := by decide
  simp only [analyze_rule_of_thirds, h1, h2]
  norm_num [pyDiv, np_div, np_div_l, py_min_one, h3, h4, h5, h6]

/-- C7 (amended): `analyze_image` performs no zero-area check; a zero width
or height makes it raise Python's `ZeroDivisionError` (at the
`aspect_ratio = width / height` division when the height is 0, at the
`ImageStat` channel means when only the width is 0) rather than any
distinguished empty-image error. -/
theorem C7_zero_area_zero_division (ops : LibOps) (image : Img)
    (h : image.w = 0 ∨ image.h = 0) :
    analyze_image ops image = Except.error PyErr.zeroDivision := by
  by_cases hh : image.h = 0
  · simp [analyze_image, pyDiv, hh]
  · have hw : image.w = 0 := by tauto
    have hq : ((image.h : ℚ)) ≠ 0 := Nat.cast_ne_zero.mpr hh
    simp [analyze_image, image_brightness, pyDiv, hw, hq]

/-- Witness for C7 on the 1×0 image. -/
theorem C7_zero_area_zero_division_witness :
    (img_hzero.w = 0 ∨ img_hzero.h = 0) ∧
    analyze_image dummy_ops img_hzero = Except.error PyErr.zeroDivision :=
  ⟨Or.inr rfl, C7_zero_area_zero_division dummy_ops img_hzero (Or.inr rfl)⟩

/-- Counterexample to C7 as stated: on a width-1, height-0 image,
`analyze_image` fails with `ZeroDivisionError` from the aspect-ratio
division, not with the spec's distinguished `EmptyImageError` (which the
source never defines or raises). -/
theorem C7_counterexample :
    analyze_image dummy_ops img_hzero = Except.error PyErr.zeroDivision ∧
    analyze_image dummy_ops img_hzero ≠ Except.error PyErr.emptyImage := by
  have h : analyze_image dummy_ops img_hzero = Except.error PyErr.zeroDivision := by
    simp [analyze_image, pyDiv, img_hzero]
  exact ⟨h, by rw [h]; simp⟩

/-- C8: when two suggestions write the same metric family and no later
suggestion writes it, the final delta equals the one the later writing
suggestion assigns on its own — the loop overwrites, it does not
accumulate, and the assigned value depends only on the suggestion and the
analysis. -/
theorem C8_last_match_wins (f : Fam) (a : AnalysisMetrics)
    (ss₁ ss₂ ss₃ : List String) (s₁ s₂ : String)
    (h₁ : fam_writes f s₁ = true) (h₂ : fam_writes f s₂ = true)
    (h₃ : ∀ s ∈ ss₃, fam_writes f s = false) :
    fam_delta f (parse_suggestions (ss₁ ++ s₁ :: (ss₂ ++ s₂ :: ss₃)) a)
      = fam_delta f (parse_suggestions [s₂] a) := by
  unfold parse_suggestions
  simp only [List.foldl_append, List.foldl_cons, List.foldl_nil]
  rw [foldl_fam_skip a f ss₃ _ h₃, fam_delta_write a _ s₂ f h₂,
    fam_delta_write a _ s₂ f h₂]

/-- Witness for C8: `"increase brightness"` then `"darker exposure"` — the
final brightness delta is the one `"darker exposure"` alone assigns. -/
theorem C8_last_match_wins_witness :
    fam_writes Fam.brightness "increase brightness" = true ∧
    fam_writes Fam.brightness "darker exposure" = true ∧
    fam_delta Fam.brightness
      (parse_suggestions ["increase brightness", "darker exposure"] gray_metrics)
      = fam_delta Fam.brightness
          (parse_suggestions ["darker exposure"] gray_metrics) :=
  ⟨by decide, by decide,
    C8_last_match_wins Fam.brightness gray_metrics [] [] []
      "increase brightness" "darker exposure" (by decide) (by decide)
      (fun s hs => absurd hs (List.not_mem_nil s))⟩

/-- Population-variance bound behind C9: for a grid of values in `[0, 255]`
over a nonempty image, the variance is at most `(255/2)²`. -/
theorem gray_var_le_quarter (w h : ℕ) (g : ℕ → ℕ → ℕ) (hw : 0 < w)
    (hh : 0 < h) (hg : ∀ x y, g x y ≤ 255) :
    gray_var w h g ≤ (255/2)^2 := by
  have hn0 : (0:ℚ) < ((w * h : ℕ) : ℚ) := by
    exact_mod_cast Nat.mul_pos hw hh
  set n : ℚ := ((w * h : ℕ) : ℚ) with hn
  set μ : ℚ := gray_mean w h g with hμ
  have hS : gray_sum w h g = μ * n := by
    rw [hμ, gray_mean, ← hn]
    field_simp
  have hsum : (∑ y ∈ Finset.range h, ∑ x ∈ Finset.range w, ((g x y : ℚ) - μ)^2)
      ≤ (255 - 2*μ) * gray_sum w h g + n * μ^2 := by
    have step1 : (∑ y ∈ Finset.range h, ∑ x ∈ Finset.range w, ((g x y : ℚ) - μ)^2)
        ≤ ∑ y ∈ Finset.range h, ∑ x ∈ Finset.range w,
            ((255 - 2*μ) * (g x y : ℚ) + μ^2) := by
      apply Finset.sum_le_sum
      intro y _
      apply Finset.sum_le_sum
      intro x _
      have h0 : (0:ℚ) ≤ (g x y : ℚ) := Nat.cast_nonneg _
      have h255 : (g x y : ℚ) ≤ 255 := by exact_mod_cast hg x y
      nlinarith [mul_nonneg h0 (by linarith : (0:ℚ) ≤ 255 - (g x y : ℚ))]
    have step2 : (∑ y ∈ Finset.range h, ∑ x ∈ Finset.range w,
          ((255 - 2*μ) * (g x y : ℚ) + μ^2))
        = (255 - 2*μ) * gray_sum w h g + n * μ^2 := by
      rw [gray_sum, hn]
      push_cast
      simp only [Finset.sum_add_distrib, Finset.sum_const, Finset.card_range,
        nsmul_eq_mul, ← Finset.mul_sum]
      ring
    exact le_of_le_of_eq step1 step2
  have hμb : 255*μ - μ^2 ≤ (255/2)^2 := by nlinarith [sq_nonneg (μ - 255/2)]
  have hfin : (∑ y ∈ Finset.range h, ∑ x ∈ Finset.range w, ((g x y : ℚ) - μ)^2)
      ≤ (255/2)^2 * n := by
    have hb : (255 - 2*μ) * gray_sum w h g + n * μ^2 = (255*μ - μ^2) * n := by
      rw [hS]; ring
    calc (∑ y ∈ Finset.range h, ∑ x ∈ Finset.range w, ((g x y : ℚ) - μ)^2)
        ≤ (255 - 2*μ) * gray_sum w h g + n * μ^2 := hsum
      _ = (255*μ - μ^2) * n := hb
      _ ≤ (255/2)^2 * n := mul_le_mul_of_nonneg_right hμb (le_of_lt hn0)
  rw [gray_var, ← hμ, ← hn, div_le_iff hn0]
  exact hfin

/-- C9: for every image with positive width and height and 8-bit grayscale
values, `_calculate_contrast` — the population standard deviation of the
grayscale intensities divided by 255 — never exceeds 1/2, since the
standard deviation of values in `[0, 255]` is at most 127.5. -/
theorem C9_contrast_le_half (w h : ℕ) (g : ℕ → ℕ → ℕ)
    (hw : 0 < w) (hh : 0 < h) (hg : ∀ x y, g x y ≤ 255) :
    calculate_contrast w h g ≤ 1/2 := by
  have hv : gray_var w h g ≤ (255/2)^2 := gray_var_le_quarter w h g hw hh hg
  have hv2 : ((gray_var w h g : ℚ) : ℝ) ≤ (((255/2)^2 : ℚ) : ℝ) := by
    exact_mod_cast hv
  have hv3 : (((255/2)^2 : ℚ) : ℝ) = ((255:ℝ)/2)^2 := by push_cast; ring
  have hs : Real.sqrt ((gray_var w h g : ℚ) : ℝ) ≤ 255/2 := by
    calc Real.sqrt ((gray_var w h g : ℚ) : ℝ)
        ≤ Real.sqrt (((255:ℝ)/2)^2) := Real.sqrt_le_sqrt (hv3 ▸ hv2)
      _ = (255:ℝ)/2 := Real.sqrt_sq (by norm_num)
  rw [calculate_contrast, div_le_iff (by norm_num : (0:ℝ) < 255)]
  linarith

/-- Witness for C9 on a 1×1 mid-gray image. -/
theorem C9_contrast_le_half_witness :
    0 < 1 ∧ (∀ x y : ℕ, (fun _ _ => 128 : ℕ → ℕ → ℕ) x y ≤ 255) ∧
    calculate_contrast 1 1 (fun _ _ => 128) ≤ 1/2 :=
  ⟨Nat.one_pos, fun _ _ => by norm_num,
    C9_contrast_le_half 1 1 (fun _ _ => 128) Nat.one_pos Nat.one_pos
      (fun _ _ => by norm_num)⟩

/-- C10: within one `_parse_suggestions` call the crop flag is monotone —
once some prefix of the suggestion list has set it, processing any further
suggestions leaves it set, since the composition block never assigns
`false`. -/
theorem C10_crop_flag_monotone (ss₁ ss₂ : List String) (a : AnalysisMetrics)
    (h : (parse_suggestions ss₁ a).crop_rule_thirds = true) :
    (parse_suggestions (ss₁ ++ ss₂) a).crop_rule_thirds = true := by
  unfold parse_suggestions at h ⊢
  rw [List.foldl_append]
  exact foldl_crop_mono a ss₂ _ h

/-- Witness for C10: `"rule of thirds"` sets the flag at score 0, and a
later brightness suggestion leaves it set. -/
theorem C10_crop_flag_monotone_witness :
    (parse_suggestions ["rule of thirds"] gray_metrics).crop_rule_thirds = true ∧
    (parse_suggestions (["rule of thirds"] ++ ["increase brightness"])
      gray_metrics).crop_rule_thirds = true := by
  have h : (parse_suggestions ["rule of thirds"] gray_metrics).crop_rule_thirds
      = true := by
    show (apply_suggestion gray_metrics zero_adjustments
      "rule of thirds").crop_rule_thirds = true
    simp only [apply_suggestion]
    apply upd_composition_sets
    · decide
    · decide
    · show gray_metrics.rule_of_thirds < 2/5
      norm_num [gray_metrics]
  exact ⟨h, C10_crop_flag_monotone _ _ _ h⟩
